import Mathlib

/-!
Shallow embedding of the revel template-compilation subsystem:
the engine registry (`template_engine/engine.go`), the loader and its
helper functions (`template.go`, shown as `src/unnamed/part_000`), and
the default Go-template compiler.  Strings are modelled as Lean
`String`/`List Char`; Go maps as association lists with insert-at-front
(first match wins, so insertion shadows, which matches Go map update);
Go `nil` pointers/slices as `Option`; external calls (file reads,
`html/template` parsing and tree merging) as explicit oracle parameters.
Go runtime panics that the code does not recover are modelled as a
distinguished outcome.  Character-level operations (`strings.ToLower`,
`unicode` whitespace) are modelled on the ASCII range, which covers
every string the source or the spec mentions.
-/

/-- Model of Go `strings.ToLower` (ASCII range): lower-case every character. -/
def strToLower (s : String) : String :=
  ⟨s.toList.map Char.toLower⟩

/-- The character class kept by `Slug`, from the regexp
`[^a-z0-9 _-]` in template.go: its complement is removed. -/
def isSlugChar (c : Char) : Bool :=
  ('a' ≤ c && c ≤ 'z') || ('0' ≤ c && c ≤ '9') || c = ' ' || c = '_' || c = '-'

/-- The character class of Go regexp `\s`: `[\t\n\f\r ]`. -/
def isGoWhitespace (c : Char) : Bool :=
  c = ' ' || c = '\t' || c = '\n' || c = '\x0c' || c = '\r'

/-- Model of `whiteSpacePattern.ReplaceAllString(text, "-")`: each maximal
run of `\s` characters is replaced by a single `-`.  The boolean flag
records whether the previous character belonged to the current run. -/
def collapseWsAux : Bool → List Char → List Char
  | _, [] => []
  | inRun, c :: rest =>
    if isGoWhitespace c then
      (if inRun then [] else ['-']) ++ collapseWsAux true rest
    else
      c :: collapseWsAux false rest

/-- Replace every maximal whitespace run by a single separator. -/
def collapseWs (l : List Char) : List Char :=
  collapseWsAux false l

/-- Model of Go `strings.Trim(text, "-")`: drop all leading and trailing
occurrences of the separator character. -/
def trimSepList (l : List Char) : List Char :=
  (((l.dropWhile (fun c => c = '-')).reverse.dropWhile (fun c => c = '-'))).reverse

/-- Model of `Slug` from template.go: lower-case, strip characters outside
`[a-z0-9 _-]`, collapse whitespace runs to `-`, trim the separator. -/
def Slug (text : String) : String :=
  let t1 := text.toList.map Char.toLower
  let t2 := t1.filter isSlugChar
  let t3 := collapseWs t2
  ⟨trimSepList t3⟩

/-- Helper for `splitLines`: accumulate the current line (reversed). -/
def splitLinesAux : List Char → List Char → List String
  | [], acc => [⟨acc.reverse⟩]
  | c :: rest, acc =>
    if c = '\n' then ⟨acc.reverse⟩ :: splitLinesAux rest []
    else splitLinesAux rest (c :: acc)

/-- Model of Go `strings.Split(s, "\n")`: split at every newline,
keeping empty segments. -/
def splitLines (s : String) : List String :=
  splitLinesAux s.toList []

example : splitLines "L1\nL2" = ["L1", "L2"] := by decide
example : splitLines "" = [""] := by decide
example : splitLines "a\n" = ["a", ""] := by decide

/-- Helper for `pathExt`: scan a reversed path, collecting characters
until a dot (return the extension) or a slash (no extension). -/
def pathExtAux : List Char → List Char → Option String
  | [], _ => none
  | c :: rest, acc =>
    if c = '/' then none
    else if c = '.' then some ⟨'.' :: acc⟩
    else pathExtAux rest (c :: acc)

/-- Model of Go `path.Ext`: the suffix beginning at the final dot in the
final slash-separated element of the path; empty if there is no dot. -/
def pathExt (p : String) : String :=
  (pathExtAux p.toList.reverse []).getD ""

example : Slug "Hello, World!  Foo_Bar" = "hello-world-foo_bar" := by decide
example : Slug "  ---Test---  " = "test" := by decide
example : pathExt "/views/a.html" = ".html" := by decide
example : pathExt "/views/a" = "" := by decide
example : pathExt "/views/a.b/c" = "" := by decide

/-- An opaque compiled Go template artifact (a non-nil
`*template.Template`): its name and, standing in for its parse tree,
the source it was parsed from. -/
structure GoTmpl where
  name : String
  src : String
deriving DecidableEq, Repr

/-- The structured `Error` type of package template_engine
(engine.go lines 46-52). -/
structure TEError where
  Title : String
  Path : String
  Description : String
  Line : Int
  SourceLines : List String
deriving DecidableEq, Repr

/-- The `revel.Error` record used by the loader.  Its full definition is
not among the shown sources; the fields are the ones the loader
constructs, matching the spec's error record
(title, path, description, line, sourceLines). -/
structure RevelError where
  Title : String
  Path : String
  Description : String
  Line : Int
  SourceLines : List String
deriving DecidableEq, Repr

/-- A Go `error` interface value together with its dynamic type, as
distinguished by the type switch in `checkTemplateError`: a value of
type `template_engine.Error`, a pointer `*template_engine.Error`
(what `AddTemplate` actually returns), a pointer `*revel.Error`, or
any other error carrying only its message. -/
inductive GoError where
  | engineErrVal (e : TEError)
  | engineErrPtr (e : TEError)
  | revelErrPtr (e : RevelError)
  | generic (msg : String)
deriving DecidableEq, Repr

/-- The `TemplateLoader` function type of package template_engine:
a compiler from (name, source, delims) to a `*template.Template` and an
`error`, either of which may be nil. -/
abbrev TmplLoader : Type :=
  String → String → List String → Option GoTmpl × Option GoError

/-- The merged template set (`*template.Template` used as a namespace):
a mapping from template name to compiled artifact. -/
abbrev TmplSet : Type :=
  List (String × GoTmpl)

/-- Viewing a single compiled artifact as a one-element merged set, for
the `engine.TemplateSet = template` assignment on the first success. -/
def tmplToSet (t : GoTmpl) : TmplSet :=
  [(t.name, t)]

/-- Oracle for `html/template.(*Template).AddParseTree`: merge an
artifact into the set under a name, or fail with an error. -/
abbrev MergeFn : Type :=
  TmplSet → String → GoTmpl → Except GoError TmplSet

/-- `TemplateInfo` from engine.go. -/
structure TemplateInfo where
  Name : String
  Path : String

/-- The process-wide `TemplateEngine` state of package template_engine
(engine.go lines 35-44). -/
structure EngineState where
  seen_paths : List (String × String)
  handlers : List (String × TmplLoader)
  templateSet : Option TmplSet
  delims : List String

/-- The state built by package template_engine's `init`. -/
def engineStart : EngineState :=
  { seen_paths := [], handlers := [], templateSet := none, delims := ["", ""] }

/-- What a call to `AddTemplate` does to the Go process: return an
`error` value (possibly nil), or hit an unrecovered runtime panic
(a nil `template.Tree` dereference in `AddParseTree`). -/
inductive AddOutcome where
  | ret (err : Option GoError)
  | panicked
deriving Repr

/-- Model of `AddTemplate` (template_engine/engine.go lines 94-148),
with the filesystem (`ioutil.ReadFile`) and the tree merge
(`AddParseTree`) passed as oracles.  Returns the call's outcome and the
engine state after the call.  The repository also carries an earlier
draft of the same package (the unnamed file) whose only differences
are a Windows-only name conversion that leaves the dedup key empty on
other platforms and a dead `ext == "html"` comparison; the named file
is taken as the authoritative version of the function. -/
def addTemplate (fs : String → Option String) (merge : MergeFn)
    (s : EngineState) (info : TemplateInfo) : AddOutcome × EngineState :=
  -- If we already loaded a template of this name, skip it.
  if (s.seen_paths.lookup info.Name).isSome then
    (.ret none, s)
  else
    -- engine.seen_paths[info.Name] = info.Path
    let s1 : EngineState := { s with seen_paths := (info.Name, info.Path) :: s.seen_paths }
    -- fileBytes, err := ioutil.ReadFile(info.Path): a failure returns nil.
    match fs info.Path with
    | none => (.ret none, s1)
    | some fileStr =>
      let ext := pathExt info.Path
      match s.handlers.lookup ext with
      | none =>
        (.ret (some (.engineErrPtr
          { Title := "Template Load Error"
            Path := info.Path
            Description := "No known handler for extension '" ++ ext ++ "'"
            Line := -1
            SourceLines := splitLines fileStr })), s1)
      | some loader =>
        let r := loader info.Name fileStr s.delims
        match r.2 with
        | some err => (.ret (some err), s1)
        | none =>
          match s.templateSet with
          | none =>
            -- engine.TemplateSet = template (template may be a nil pointer)
            (.ret none, { s1 with templateSet := r.1.map tmplToSet })
          | some ts =>
            match r.1 with
            | none => (.panicked, s1)  -- template.Tree on a nil pointer
            | some t =>
              match merge ts info.Name t with
              | .error e => (.ret (some e), s1)
              | .ok ts' => (.ret none, { s1 with templateSet := some ts' })

/-- Instrumentation observer for the registry invariant: does this
`AddTemplate` call compile a template successfully through its
compiler?  It retraces the guards of `addTemplate` and answers true
exactly when the name is fresh, the file is readable, a handler exists,
and the handler returns a non-nil artifact with a nil error. -/
def addCompileSucceeded (fs : String → Option String)
    (s : EngineState) (info : TemplateInfo) : Bool :=
  if (s.seen_paths.lookup info.Name).isSome then false
  else
    match fs info.Path with
    | none => false
    | some fileStr =>
      match s.handlers.lookup (pathExt info.Path) with
      | none => false
      | some loader =>
        let r := loader info.Name fileStr s.delims
        r.1.isSome && r.2.isNone

/-- One operation against the process-wide engine registry.  An `add`
carries the filesystem contents visible during that call. -/
inductive EngineOp where
  | register (ext : String) (loader : TmplLoader)
  | setDelims (delims : List String)
  | clear
  | add (fs : String → Option String) (info : TemplateInfo)

/-- One registry operation applied to an engine state
(`RegisterTemplater`, `SetDelims`, `Clear`, `AddTemplate`). -/
def stepE (merge : MergeFn) (s : EngineState) : EngineOp → EngineState
  | .register ext loader => { s with handlers := (ext, loader) :: s.handlers }
  | .setDelims d => { s with delims := d }
  | .clear => { s with templateSet := none, seen_paths := [] }
  | .add fs info => (addTemplate fs merge s info).2

/-- Run a sequence of registry operations, also tracking whether any
`AddTemplate` call has compiled successfully since the last `Clear`. -/
def runE (merge : MergeFn) : EngineState × Bool → List EngineOp → EngineState × Bool
  | sb, [] => sb
  | (s, flag), op :: ops =>
    let flag' := match op with
      | .register _ _ => flag
      | .setDelims _ => flag
      | .clear => false
      | .add fs info => flag || addCompileSucceeded fs s info
    runE merge (stepE merge s op, flag') ops

/-- Oracle outcome of the template-construction block inside the
default compiler (the calls into `html/template`: `New`, `Funcs`,
`Delims`, `Parse`): the block panics with a message before `tmpl` is
assigned, or `Parse` fails with an error, or parsing succeeds. -/
inductive TmplConstructOutcome where
  | panicked (msg : String)
  | parseFailed (t : GoTmpl) (msg : String)
  | parsedOk (t : GoTmpl)

/-- The local `funcError` variable of `GoTemplater` (template.go lines
280-289): the deferred recover turns a panic into a structured Error
titled "Panic (Template Loader)" whose description is
`fmt.Sprintln(err)`. -/
def GoTemplaterFuncError : TmplConstructOutcome → Option RevelError
  | .panicked msg => some
      { Title := "Panic (Template Loader)"
        Path := ""
        Description := msg ++ "\n"
        Line := 0
        SourceLines := [] }
  | _ => none

/-- Model of `GoTemplater` (template.go lines 274-307), the default
compiler registered for extension `""`.  The construction/parse block is
abstracted by the outcome oracle; note that both `return` statements
are bare returns of the named results `(tmpl, err)`, so `funcError` is
computed but never becomes the error result. -/
def GoTemplater (outcome : TmplConstructOutcome)
    (templateName templateStr : String) (delims : List String) :
    Option GoTmpl × Option GoError :=
  let funcError := GoTemplaterFuncError outcome
  let tmpl : Option GoTmpl :=
    match outcome with
    | .panicked _ => none
    | .parseFailed t _ => some t
    | .parsedOk t => some t
  let err : Option GoError :=
    match outcome with
    | .panicked _ => none
    | .parseFailed _ msg => some (.generic msg)
    | .parsedOk _ => none
  -- if funcError != nil { return }; return
  if funcError.isSome then (tmpl, err) else (tmpl, err)

/-- Length of the maximal run of decimal digits at the head of a list. -/
def digitRunLen : List Char → Nat
  | [] => 0
  | c :: rest => if c.isDigit then digitRunLen rest + 1 else 0

/-- Model of `regexp.MustCompile(":\\d+:").FindStringIndex`: the
leftmost match of a colon, one or more digits, and a colon, returned as
the half-open index span of the match.  At each candidate colon the
digit run is maximal; since a digit is never a colon, backtracking
inside the run can never produce a match the maximal run misses. -/
def findNumColon : List Char → Nat → Option (Nat × Nat)
  | [], _ => none
  | c :: rest, idx =>
    if c = ':' then
      let d := digitRunLen rest
      if 0 < d ∧ (rest.drop d).head? = some ':' then some (idx, idx + d + 2)
      else findNumColon rest (idx + 1)
    else findNumColon rest (idx + 1)

/-- Decimal value of a digit string (model of `strconv.Atoi` on the
all-digit slice the caller passes; integer overflow is not modelled). -/
def decimalVal (l : List Char) : Nat :=
  l.foldl (fun a c => a * 10 + (c.toNat - 48)) 0

/-- ASCII white space, the relevant fragment of `unicode.IsSpace`. -/
def isSpaceASCII (c : Char) : Bool :=
  c = ' ' || c = '\t' || c = '\n' || c = '\x0b' || c = '\x0c' || c = '\r'

/-- Model of `strings.TrimSpace` (ASCII range). -/
def trimSpaceList (l : List Char) : List Char :=
  ((l.dropWhile isSpaceASCII).reverse.dropWhile isSpaceASCII).reverse

/-- Index of the first occurrence of a character
(model of `strings.Index` with a one-character needle). -/
def idxOfChar (c : Char) : List Char → Option Nat
  | [] => none
  | x :: rest => if x = c then some 0 else (idxOfChar c rest).map (· + 1)

/-- Model of `parseTemplateError` (template.go lines 321-337) applied to
the error's message string.  On a match it reads the line number from
the digits, takes the text before the match, drops that text's
leading segment through its first colon, trims surrounding white space,
and resumes the description one character past the match.  `none`
models the slice-out-of-range panic of `description[i[1]+1:]` when the
match ends exactly at the end of the string. -/
def parseTemplateError (msg : String) : Option (String × Nat × String) :=
  let cs := msg.toList
  match findNumColon cs 0 with
  | none => some ("", 0, msg)
  | some (i0, i1) =>
    if i1 + 1 ≤ cs.length then
      let line := decimalVal ((cs.drop (i0 + 1)).take (i1 - 1 - (i0 + 1)))
      let tn0 := cs.take i0
      let tn1 := match idxOfChar ':' tn0 with
        | some colon => tn0.drop (colon + 1)
        | none => tn0
      some (⟨trimSpaceList tn1⟩, line, ⟨cs.drop (i1 + 1)⟩)
    else none

/-- Modelled from the spec (claim C4 wording): the same extraction but
trimming the template-name text up to its last colon instead of its
first. -/
def parseTemplateErrorLastColon (msg : String) : Option (String × Nat × String) :=
  let cs := msg.toList
  match findNumColon cs 0 with
  | none => some ("", 0, msg)
  | some (i0, i1) =>
    if i1 + 1 ≤ cs.length then
      let line := decimalVal ((cs.drop (i0 + 1)).take (i1 - 1 - (i0 + 1)))
      let tn0 := cs.take i0
      let tn1 := match idxOfChar ':' tn0.reverse with
        | some colon => tn0.drop (tn0.length - colon)
        | none => tn0
      some (⟨trimSpaceList tn1⟩, line, ⟨cs.drop (i1 + 1)⟩)
    else none

example : parseTemplateError "html/template:Application/Register.html:36: no such template" =
    some ("Application/Register.html", 36, "no such template") := by decide
example : parseTemplateError "no pattern here" = some ("", 0, "no pattern here") := by decide
example : parseTemplateError "a:b:c:5: boom" = some ("b:c", 5, "boom") := by decide
example : parseTemplateErrorLastColon "a:b:c:5: boom" = some ("c", 5, "boom") := by decide

/-- The message produced by a Go error value's `Error()` method.  For
the template_engine `Error` this is `Title: Description`
(engine.go lines 54-56); for `revel.Error`, whose definition is not
among the shown sources, the same shape is modelled from the spec's
error record; a generic error carries its own message. -/
def goErrorMsg : GoError → String
  | .engineErrVal e => e.Title ++ ": " ++ e.Description
  | .engineErrPtr e => e.Title ++ ": " ++ e.Description
  | .revelErrPtr e => e.Title ++ ": " ++ e.Description
  | .generic msg => msg

/-- Model of the `checkTemplateError` closure inside `Refresh`
(template.go lines 215-239).  It updates the loader's stored
`compileError` only when the incoming error is non-nil and no error is
stored yet, and then only when the error's dynamic type matches one of
the two switch cases: the value type `template_engine.Error` or the
pointer type `*revel.Error`.  Any other dynamic type (in particular
`*template_engine.Error` and generic parse errors) falls through the
switch and is dropped.  The outer `none` models the panic that
`parseTemplateError` can hit. -/
def checkTemplateError (compileError : Option RevelError)
    (err : Option GoError) (name : String) : Option (Option RevelError) :=
  match err with
  | none => some compileError
  | some e =>
    if compileError.isSome then some compileError
    else
      match e with
      | .engineErrVal te =>
        some (some { Title := te.Title, Path := te.Path, Description := te.Description,
                     Line := te.Line, SourceLines := te.SourceLines })
      | .revelErrPtr re =>
        match parseTemplateError (goErrorMsg (.revelErrPtr re)) with
        | none => none
        | some (_, line, description) =>
          some (some { Title := "Template Compilation Error", Path := name,
                       Description := description, Line := (line : Int),
                       SourceLines := ["not implemented"] })
      | _ => some compileError

/-- Model of the per-file body of the `Refresh` walk (template.go lines
242-255) iterated over the discovered template files, given as
(relative template name, full path) pairs in walk order; directory
pruning and the relative-name computation are abstracted into that
list.  Each file is submitted to `AddTemplate` under its own name and
again under its lower-cased name, and each result goes through
`checkTemplateError`.  The walk starts from a freshly reset
`compileError` and returns the retained error and the engine state;
`none` models a panic escaping the walk. -/
def refreshWalk (fs : String → Option String) (merge : MergeFn)
    (files : List (String × String)) (es : EngineState) :
    Option (Option RevelError × EngineState) :=
  files.foldl
    (fun acc file =>
      match acc with
      | none => none
      | some (ce, es) =>
        match addTemplate fs merge es ⟨file.1, file.2⟩ with
        | (.panicked, _) => none
        | (.ret err1, es1) =>
          match checkTemplateError ce err1 file.1 with
          | none => none
          | some ce1 =>
            let lower := strToLower file.1
            match addTemplate fs merge es1 ⟨lower, file.2⟩ with
            | (.panicked, _) => none
            | (.ret err2, es2) =>
              (checkTemplateError ce1 err2 lower).map (fun ce2 => (ce2, es2)))
    (some (none, es))

/-- The fields of `TemplateLoader` that `Template(name)` reads: the
snapshot of the merged set taken at the end of `Refresh`, and the
stored compile error. -/
structure LoaderState where
  templateSet : Option TmplSet
  compileError : Option RevelError

/-- The `GoTemplate` adapter value (template.go lines 366-369): a
struct wrapping the embedded `*template.Template`, which may be nil.
The loader back-reference is not modelled. -/
structure GoTemplateVal where
  tmpl : Option GoTmpl
deriving DecidableEq, Repr

/-- Outcome of `TemplateLoader.Template`: the returned
(`Template` interface value, error) pair, or the nil-pointer panic of
calling `Lookup` on a nil template set. -/
inductive TemplateResult where
  | panicked
  | ok (t : Option GoTemplateVal) (err : Option GoError)
deriving DecidableEq, Repr

/-- Model of `TemplateLoader.Template` (template.go lines 344-363):
lower-case the name, look it up in the merged set, surface the stored
compile error if any, and fail with a not-found error only when both
the lookup and the stored error are empty. -/
def loaderTemplate (loader : LoaderState) (name : String) : TemplateResult :=
  let name := strToLower name
  match loader.templateSet with
  | none => .panicked
  | some ts =>
    let tmpl := ts.lookup name
    let err : Option GoError := loader.compileError.map .revelErrPtr
    if tmpl.isNone && err.isNone then
      .ok none (some (.generic ("Template " ++ name ++ " not found.")))
    else
      .ok (some ⟨tmpl⟩) err

/-- Filesystem for the two-template refresh scenario: one broken
template and one valid template. -/
def c2fs : String → Option String := fun p =>
  if p = "/views/bad" then some "BAD"
  else if p = "/views/good" then some "GOOD" else none

/-- A compiler that fails with a positional parse error on the broken
source and succeeds on everything else, as the default compiler does. -/
def c2loader : TmplLoader := fun name str _ =>
  if str = "BAD" then
    (some ⟨name, str⟩, some (.generic ("template: " ++ name ++ ":1: unexpected EOF")))
  else (some ⟨name, str⟩, none)

/-- A merge oracle that always succeeds by extending the set. -/
def c2merge : MergeFn := fun ts n t => .ok (ts ++ [(n, t)])

/-- Engine state with the scenario compiler registered as the
default (extensionless) handler, as `init` in template.go does. -/
def c2engine : EngineState :=
  { seen_paths := [], handlers := [("", c2loader)], templateSet := none,
    delims := ["", ""] }

/-- The two files discovered by the walk, broken one first. -/
def c2files : List (String × String) :=
  [("bad", "/views/bad"), ("good", "/views/good")]

/-- Claim C1: the spec requires the default compiler to convert an
internal construction-time panic into a structured Error titled
"Panic (Template Loader)" returned as its error result.  The code does
recover the panic and build exactly that Error in the local
`funcError`, but both exits of `GoTemplater` are bare returns of the
named results, so the call returns a nil error and the structured
Error is dropped. -/
theorem GoTemplater_panic_returns_nil_error :
    GoTemplater (.panicked "wrong signature for template func") "n" "src" []
      = (none, none) ∧
    GoTemplaterFuncError (.panicked "wrong signature for template func")
      = some { Title := "Panic (Template Loader)", Path := "",
               Description := "wrong signature for template func\n",
               Line := 0, SourceLines := [] } :=
  ⟨rfl, rfl⟩

/-- Claim C2: the spec says the first error of the walk is retained as
`compileError` and returned by `Refresh`.  In the code,
`checkTemplateError`'s type switch matches only the value type
`template_engine.Error` and the pointer type `*revel.Error`, while
`AddTemplate` returns `*template_engine.Error` or a generic compiler
error, so no case matches: on a walk over a broken template followed
by a valid one the retained error is nil (`Refresh` would return nil),
even though the valid template still compiles and `Template` finds it
with no error. -/
theorem refresh_first_error_not_retained :
    (refreshWalk c2fs c2merge c2files c2engine).map
        (fun r => (r.1, r.2.templateSet))
      = some (none, some [("good", ⟨"good", "GOOD"⟩)]) ∧
    loaderTemplate ⟨some [("good", ⟨"good", "GOOD"⟩)], none⟩ "good"
      = .ok (some ⟨some ⟨"good", "GOOD"⟩⟩) none :=
  ⟨rfl, rfl⟩

/-- Claim C4 counterexample: on a message whose text before the
`:digits:` fragment contains more than one colon, the code trims that
text up to its first colon (keeping "b:c"), not up to its last colon
(which would keep "c") as the claim states. -/
theorem parseTemplateError_first_not_last_colon :
    parseTemplateError "a:b:c:5: boom" = some ("b:c", 5, "boom") ∧
    parseTemplateErrorLastColon "a:b:c:5: boom" = some ("c", 5, "boom") ∧
    parseTemplateError "a:b:c:5: boom" ≠ parseTemplateErrorLastColon "a:b:c:5: boom" :=
  ⟨by decide, by decide, by decide⟩

/-- On a fresh name, every control path of `AddTemplate` leaves
`seen_paths` extended by exactly the new record, placed there before
the read and the compile. -/
theorem addTemplate_seen_cons (fs : String → Option String) (merge : MergeFn)
    (s : EngineState) (info : TemplateInfo)
    (h : (s.seen_paths.lookup info.Name).isSome = false) :
    (addTemplate fs merge s info).2.seen_paths
      = (info.Name, info.Path) :: s.seen_paths := by
  unfold addTemplate
  cases hfs : fs info.Path with
  | none => simp [h, hfs]
  | some fileStr =>
    cases hh : s.handlers.lookup (pathExt info.Path) with
    | none => simp [h, hfs, hh]
    | some loader =>
      cases he : (loader info.Name fileStr s.delims).2 with
      | some e => simp [h, hfs, hh, he]
      | none =>
        cases hts : s.templateSet with
        | none => simp [h, hfs, hh, he, hts]
        | some ts =>
          cases ht : (loader info.Name fileStr s.delims).1 with
          | none => simp [h, hfs, hh, he, hts, ht]
          | some t =>
            cases hm : merge ts info.Name t with
            | error e => simp [h, hfs, hh, he, hts, ht, hm]
            | ok ts' => simp [h, hfs, hh, he, hts, ht, hm]

/-- After any `AddTemplate` call, the submitted name is present in
`seen_paths`: the call either found it there already or recorded it
before reading or compiling anything. -/
theorem addTemplate_seen (fs : String → Option String) (merge : MergeFn)
    (s : EngineState) (info : TemplateInfo) :
    ((addTemplate fs merge s info).2.seen_paths.lookup info.Name).isSome = true := by
  by_cases h : (s.seen_paths.lookup info.Name).isSome = true
  · have heq : addTemplate fs merge s info = (.ret none, s) := by
      unfold addTemplate
      simp [h]
    rw [heq]
    exact h
  · have h' : (s.seen_paths.lookup info.Name).isSome = false :=
      Bool.eq_false_iff.mpr h
    rw [addTemplate_seen_cons fs merge s info h']
    simp [List.lookup]

/-- Claim C3: within one build generation, `AddTemplate` is idempotent
per logical name.  Whatever the first call on a name did (failed
compile included), any later call with the same name returns a nil
error immediately and leaves the whole engine state untouched, even if
the later call's path, visible filesystem, or merge behaviour differ. -/
theorem addTemplate_idempotent_per_name (fs fs' : String → Option String)
    (merge merge' : MergeFn) (s : EngineState) (name path path' : String) :
    ((addTemplate fs merge s ⟨name, path⟩).2.seen_paths.lookup name).isSome = true ∧
    addTemplate fs' merge' (addTemplate fs merge s ⟨name, path⟩).2 ⟨name, path'⟩
      = (.ret none, (addTemplate fs merge s ⟨name, path⟩).2) := by
  refine ⟨addTemplate_seen fs merge s ⟨name, path⟩, ?_⟩
  have h := addTemplate_seen fs merge s ⟨name, path⟩
  set s2 := (addTemplate fs merge s ⟨name, path⟩).2 with hs2
  unfold addTemplate
  simp [h]

/-- Claim C6: on a readable, not-yet-seen file whose extension has no
registered compiler, `AddTemplate` returns the structured Error with
title "Template Load Error", the offending path, a description naming
the extension, line sentinel -1, and the raw source split into lines;
the only state change is the `seen_paths` record (the merged set is
unchanged). -/
theorem addTemplate_missing_handler (fs : String → Option String) (merge : MergeFn)
    (s : EngineState) (info : TemplateInfo) (content : String)
    (hseen : s.seen_paths.lookup info.Name = none)
    (hread : fs info.Path = some content)
    (hhandler : s.handlers.lookup (pathExt info.Path) = none) :
    addTemplate fs merge s info =
      (.ret (some (.engineErrPtr
        { Title := "Template Load Error"
          Path := info.Path
          Description := "No known handler for extension '" ++ pathExt info.Path ++ "'"
          Line := -1
          SourceLines := splitLines content })),
       { s with seen_paths := (info.Name, info.Path) :: s.seen_paths }) := by
  unfold addTemplate
  simp [hseen, hread, hhandler]

/-- Witness for claim C6 at a concrete input: extension ".xyz" has no
handler in the start state, the file is readable, and the call
surfaces the structured error naming '.xyz'. -/
theorem addTemplate_missing_handler_witness :
    addTemplate (fun p => if p = "/v/a.xyz" then some "L1\nL2" else none)
        c2merge engineStart ⟨"a.xyz", "/v/a.xyz"⟩ =
      (.ret (some (.engineErrPtr
        { Title := "Template Load Error"
          Path := "/v/a.xyz"
          Description := "No known handler for extension '.xyz'"
          Line := -1
          SourceLines := ["L1", "L2"] })),
       { engineStart with seen_paths := [("a.xyz", "/v/a.xyz")] }) :=
  (addTemplate_missing_handler _ c2merge engineStart ⟨"a.xyz", "/v/a.xyz"⟩
    "L1\nL2" rfl rfl rfl).trans rfl

/-- Claim C7: on a not-yet-seen name whose file cannot be read,
`AddTemplate` returns a nil error (the walk continues) and the merged
set is untouched; only `seen_paths` records the name, so the template
is simply absent from the merged set. -/
theorem addTemplate_unreadable_file (fs : String → Option String) (merge : MergeFn)
    (s : EngineState) (info : TemplateInfo)
    (hseen : s.seen_paths.lookup info.Name = none)
    (hread : fs info.Path = none) :
    addTemplate fs merge s info =
      (.ret none, { s with seen_paths := (info.Name, info.Path) :: s.seen_paths }) := by
  unfold addTemplate
  simp [hseen, hread]

/-- Witness for claim C7 at a concrete input: an empty filesystem makes
the read fail, the call returns a nil error, and only `seen_paths`
changes. -/
theorem addTemplate_unreadable_file_witness :
    addTemplate (fun _ => none) c2merge engineStart ⟨"a", "/v/a"⟩ =
      (.ret none, { engineStart with seen_paths := [("a", "/v/a")] }) :=
  (addTemplate_unreadable_file _ c2merge engineStart ⟨"a", "/v/a"⟩ rfl rfl).trans rfl

/-- Claim C8: `Template(name)` lower-cases the name before lookup (two
names with the same lower-casing are indistinguishable); a lookup miss
with no stored compile error yields a nil template and a "not found"
error; and a stored compile error is always returned alongside
whatever the lookup produced, including a non-nil template paired with
the non-nil error. -/
theorem templateLookup_spec :
    (∀ (loader : LoaderState) (name1 name2 : String),
      strToLower name1 = strToLower name2 →
      loaderTemplate loader name1 = loaderTemplate loader name2) ∧
    (∀ (loader : LoaderState) (ts : TmplSet) (name : String),
      loader.templateSet = some ts →
      ts.lookup (strToLower name) = none →
      loader.compileError = none →
      loaderTemplate loader name =
        .ok none (some (.generic ("Template " ++ strToLower name ++ " not found.")))) ∧
    (∀ (loader : LoaderState) (ts : TmplSet) (name : String) (e : RevelError),
      loader.templateSet = some ts →
      loader.compileError = some e →
      loaderTemplate loader name =
        .ok (some ⟨ts.lookup (strToLower name)⟩) (some (.revelErrPtr e))) := by
  refine ⟨?_, ?_, ?_⟩
  · intro loader name1 name2 h
    unfold loaderTemplate
    rw [h]
  · intro loader ts name h1 h2 h3
    unfold loaderTemplate
    simp [h1, h2, h3]
  · intro loader ts name e h1 h2
    unfold loaderTemplate
    simp [h1, h2]

/-- Witness for claim C8 at concrete inputs: case-insensitive lookup of
"Foo"/"foo", a miss with no stored error, and a hit paired with a
stored error. -/
theorem templateLookup_spec_witness :
    loaderTemplate ⟨some [("foo", ⟨"foo", "X"⟩)], none⟩ "Foo"
        = loaderTemplate ⟨some [("foo", ⟨"foo", "X"⟩)], none⟩ "foo" ∧
    loaderTemplate ⟨some [("foo", ⟨"foo", "X"⟩)], none⟩ "bar"
        = .ok none (some (.generic "Template bar not found.")) ∧
    loaderTemplate
        ⟨some [("foo", ⟨"foo", "X"⟩)],
         some { Title := "E", Path := "p", Description := "d", Line := 3, SourceLines := [] }⟩ "foo"
        = .ok (some ⟨some ⟨"foo", "X"⟩⟩)
            (some (.revelErrPtr
              { Title := "E", Path := "p", Description := "d", Line := 3, SourceLines := [] })) :=
  ⟨templateLookup_spec.1 _ "Foo" "foo" rfl,
   (templateLookup_spec.2.1 _ [("foo", ⟨"foo", "X"⟩)] "bar" rfl rfl rfl).trans rfl,
   (templateLookup_spec.2.2 _ [("foo", ⟨"foo", "X"⟩)] "foo"
      { Title := "E", Path := "p", Description := "d", Line := 3, SourceLines := [] }
      rfl rfl).trans rfl⟩

/-- Claim C10 (implicit): when the lookup misses but a compile error is
stored, `Template(name)` does not return a nil interface value: it
returns a non-nil `GoTemplate` struct wrapping a nil embedded
`*template.Template`, paired with the error. -/
theorem templateMiss_with_error_wraps_nil (loader : LoaderState) (ts : TmplSet)
    (name : String) (e : RevelError)
    (h1 : loader.templateSet = some ts)
    (h2 : ts.lookup (strToLower name) = none)
    (h3 : loader.compileError = some e) :
    loaderTemplate loader name
      = .ok (some { tmpl := none }) (some (.revelErrPtr e)) := by
  unfold loaderTemplate
  simp [h1, h2, h3]

/-- Witness for claim C10 at a concrete input: empty compiled set, a
stored error, and a missing name produce a non-nil handle around a nil
template. -/
theorem templateMiss_with_error_wraps_nil_witness :
    loaderTemplate
        ⟨some [],
         some { Title := "E", Path := "p", Description := "d", Line := 3, SourceLines := [] }⟩ "x"
      = .ok (some { tmpl := none })
          (some (.revelErrPtr
            { Title := "E", Path := "p", Description := "d", Line := 3, SourceLines := [] })) :=
  templateMiss_with_error_wraps_nil _ [] "x"
    { Title := "E", Path := "p", Description := "d", Line := 3, SourceLines := [] } rfl rfl rfl

/-- Every element of a collapsed list is either the separator or a
non-whitespace element of the original list. -/
theorem mem_collapseWsAux (c : Char) :
    ∀ (b : Bool) (l : List Char), c ∈ collapseWsAux b l →
      c = '-' ∨ (c ∈ l ∧ isGoWhitespace c = false) := by
  intro b l
  induction l generalizing b with
  | nil => intro h; cases h
  | cons x rest ih =>
    intro h
    unfold collapseWsAux at h
    by_cases hx : isGoWhitespace x = true
    · rw [if_pos hx] at h
      rcases List.mem_append.mp h with h1 | h2
      · cases b with
        | true => cases h1
        | false => left; simpa using h1
      · rcases ih true h2 with h3 | ⟨h4, h5⟩
        · left; exact h3
        · right; exact ⟨List.mem_cons_of_mem _ h4, h5⟩
    · rw [if_neg hx] at h
      rcases List.mem_cons.mp h with rfl | h2
      · right
        exact ⟨List.mem_cons_self _ _, Bool.eq_false_iff.mpr hx⟩
      · rcases ih false h2 with h3 | ⟨h4, h5⟩
        · left; exact h3
        · right; exact ⟨List.mem_cons_of_mem _ h4, h5⟩

/-- Membership survives `dropWhile` backwards. -/
theorem mem_of_mem_dropWhile (p : Char → Bool) :
    ∀ (l : List Char) (c : Char), c ∈ l.dropWhile p → c ∈ l := by
  intro l
  induction l with
  | nil => intro c h; exact h
  | cons x rest ih =>
    intro c h
    rw [List.dropWhile_cons] at h
    by_cases hx : p x = true
    · rw [if_pos hx] at h
      exact List.mem_cons_of_mem _ (ih c h)
    · rw [if_neg hx] at h
      exact h

/-- The head of a `dropWhile` result does not satisfy the predicate. -/
theorem head_dropWhile_false (p : Char → Bool) :
    ∀ (l : List Char) (c : Char), (l.dropWhile p).head? = some c → p c = false := by
  intro l
  induction l with
  | nil => intro c h; cases h
  | cons x rest ih =>
    intro c h
    rw [List.dropWhile_cons] at h
    by_cases hx : p x = true
    · rw [if_pos hx] at h
      exact ih c h
    · rw [if_neg hx] at h
      cases h
      exact Bool.eq_false_iff.mpr hx

/-- When `dropWhile` returns a nonempty list, the last element is the
last element of the original list. -/
theorem getLast_dropWhile_ne_nil (p : Char → Bool) :
    ∀ (l : List Char), l.dropWhile p ≠ [] → (l.dropWhile p).getLast? = l.getLast? := by
  intro l
  induction l with
  | nil => intro h; simp at h
  | cons x rest ih =>
    intro h
    rw [List.dropWhile_cons]
    by_cases hx : p x = true
    · rw [List.dropWhile_cons, if_pos hx] at h
      rw [if_pos hx, ih h]
      cases rest with
      | nil => simp [List.dropWhile] at h
      | cons y ys => rw [List.getLast?_cons_cons]
    · rw [if_neg hx]

/-- Both ends of a both-ends-trimmed list fail the trimming predicate. -/
theorem trimmed_ends (p : Char → Bool) (l : List Char) :
    (∀ c, (((l.dropWhile p).reverse.dropWhile p).reverse.head? = some c → p c = false)) ∧
    (∀ c, (((l.dropWhile p).reverse.dropWhile p).reverse.getLast? = some c → p c = false)) := by
  constructor
  · intro c h
    rw [List.head?_reverse] at h
    have hne : (l.dropWhile p).reverse.dropWhile p ≠ [] := by
      intro h0
      rw [h0] at h
      cases h
    rw [getLast_dropWhile_ne_nil p _ hne, List.getLast?_reverse] at h
    exact head_dropWhile_false p _ c h
  · intro c h
    rw [List.getLast?_reverse] at h
    exact head_dropWhile_false p _ c h

/-- Claim C5: `Slug` lower-cases, strips characters outside
`[a-z0-9 _-]`, collapses whitespace runs to single `-` separators and
trims leading/trailing separators: the two specified examples hold,
every output character is in `[a-z0-9_-]` (whitespace never survives),
and the output neither starts nor ends with the separator. -/
theorem Slug_spec :
    Slug "Hello, World!  Foo_Bar" = "hello-world-foo_bar" ∧
    Slug "  ---Test---  " = "test" ∧
    (∀ (s : String) (c : Char), c ∈ (Slug s).toList → isSlugChar c = true ∧ c ≠ ' ') ∧
    (∀ (s : String) (c : Char), (Slug s).toList.head? = some c → c ≠ '-') ∧
    (∀ (s : String) (c : Char), (Slug s).toList.getLast? = some c → c ≠ '-') := by
  refine ⟨by decide, by decide, ?_, ?_, ?_⟩
  · intro s c hc
    have hc' : c ∈ trimSepList (collapseWs ((s.toList.map Char.toLower).filter isSlugChar)) := hc
    unfold trimSepList at hc'
    rw [List.mem_reverse] at hc'
    have hc2 := mem_of_mem_dropWhile _ _ _ hc'
    rw [List.mem_reverse] at hc2
    have hc3 := mem_of_mem_dropWhile _ _ _ hc2
    rcases mem_collapseWsAux c false _ hc3 with rfl | ⟨h4, h5⟩
    · exact ⟨by decide, by decide⟩
    · refine ⟨(List.mem_filter.mp h4).2, ?_⟩
      intro he
      rw [he] at h5
      exact absurd h5 (by decide)
  · intro s c hc
    have hc' : (trimSepList (collapseWs
        ((s.toList.map Char.toLower).filter isSlugChar))).head? = some c := hc
    unfold trimSepList at hc'
    have hp := (trimmed_ends (fun c => c = '-') _).1 c hc'
    exact of_decide_eq_false hp
  · intro s c hc
    have hc' : (trimSepList (collapseWs
        ((s.toList.map Char.toLower).filter isSlugChar))).getLast? = some c := hc
    unfold trimSepList at hc'
    have hp := (trimmed_ends (fun c => c = '-') _).2 c hc'
    exact of_decide_eq_false hp

/-- Witness for claim C5 at concrete inputs: an output character of the
first example satisfies the character-set property, and the head and
last characters of the second example are not separators. -/
theorem Slug_spec_witness :
    ('h' ∈ (Slug "Hello, World!  Foo_Bar").toList) ∧
    (isSlugChar 'h' = true ∧ 'h' ≠ ' ') ∧
    ((Slug "  ---Test---  ").toList.head? = some 't') ∧
    ((Slug "  ---Test---  ").toList.getLast? = some 't') ∧
    ('t' ≠ '-') :=
  ⟨by decide, Slug_spec.2.2.1 "Hello, World!  Foo_Bar" 'h' (by decide),
   by decide, by decide, Slug_spec.2.2.2.1 "  ---Test---  " 't' (by decide)⟩

/-- Unfolding equation of the scanner at a nonempty list. -/
theorem findNumColon_cons (c : Char) (rest : List Char) (idx : Nat) :
    findNumColon (c :: rest) idx =
      if c = ':' then
        if 0 < digitRunLen rest ∧ (rest.drop (digitRunLen rest)).head? = some ':'
        then some (idx, idx + digitRunLen rest + 2)
        else findNumColon rest (idx + 1)
      else findNumColon rest (idx + 1) :=
  rfl

/-- Scanning for the `:digits:` pattern skips a colon-free block. -/
theorem findNumColon_append_no_colon :
    ∀ (l r : List Char) (idx : Nat), ':' ∉ l →
      findNumColon (l ++ r) idx = findNumColon r (idx + l.length) := by
  intro l
  induction l with
  | nil => intro r idx _; simp
  | cons x rest ih =>
    intro r idx hx
    have hx1 : ¬(x = ':') := fun h => hx (h ▸ List.mem_cons_self _ _)
    have harith : idx + 1 + rest.length = idx + (x :: rest).length := by
      simp only [List.length_cons]
      omega
    rw [List.cons_append, findNumColon_cons, if_neg hx1,
      ih r (idx + 1) (fun h => hx (List.mem_cons_of_mem _ h)), harith]

/-- The maximal digit run over an all-digit block followed by a
non-digit is exactly the block. -/
theorem digitRunLen_of_digits :
    ∀ (d r : List Char), (∀ c ∈ d, c.isDigit = true) →
      (∀ c, r.head? = some c → c.isDigit = false) →
      digitRunLen (d ++ r) = d.length := by
  intro d
  induction d with
  | nil =>
    intro r _ hr
    cases r with
    | nil => rfl
    | cons y ys =>
      have hy := hr y rfl
      unfold digitRunLen
      simp [hy]
  | cons x xs ih =>
    intro r hd hr
    have hx : x.isDigit = true := hd x (List.mem_cons_self _ _)
    rw [List.cons_append]
    unfold digitRunLen
    rw [if_pos hx, ih r (fun c hc => hd c (List.mem_cons_of_mem _ hc)) hr]
    simp

/-- The first occurrence of a character that is absent from the block
before it sits right after that block. -/
theorem idxOfChar_append (c : Char) :
    ∀ (l r : List Char), c ∉ l → idxOfChar c (l ++ c :: r) = some l.length := by
  intro l
  induction l with
  | nil =>
    intro r _
    unfold idxOfChar
    simp
  | cons x rest ih =>
    intro r hx
    have hx1 : ¬(x = c) := fun h => hx (h ▸ List.mem_cons_self _ _)
    rw [List.cons_append]
    unfold idxOfChar
    rw [if_neg hx1, ih r (fun h => hx (List.mem_cons_of_mem _ h))]
    simp

/-- Leftmost-match computation for the `:digits:` scanner on a message
of the shape `a : b : digits : ...`: the colon after `a` fails because
`b` does not start with a digit, so the match is the digit block. -/
theorem findNumColon_structured (aL bL dsL restL : List Char) (idx : Nat)
    (ha : ':' ∉ aL) (hb : ':' ∉ bL)
    (hbh : ∀ c, bL.head? = some c → c.isDigit = false) (hbne : bL ≠ [])
    (hds : ∀ c ∈ dsL, c.isDigit = true) (hdsne : dsL ≠ []) :
    findNumColon (aL ++ ':' :: (bL ++ ':' :: (dsL ++ ':' :: ' ' :: restL))) idx
      = some (idx + aL.length + 1 + bL.length,
              idx + aL.length + 1 + bL.length + dsL.length + 2) := by
  rw [findNumColon_append_no_colon _ _ _ ha]
  rw [findNumColon_cons, if_pos rfl]
  have hd0 : digitRunLen (bL ++ ':' :: (dsL ++ ':' :: ' ' :: restL)) = 0 := by
    cases bL with
    | nil => exact absurd rfl hbne
    | cons y ys =>
      have hy := hbh y rfl
      rw [List.cons_append]
      unfold digitRunLen
      simp [hy]
  rw [if_neg (by rw [hd0]; simp)]
  rw [findNumColon_append_no_colon _ _ _ hb]
  rw [findNumColon_cons, if_pos rfl]
  have hdl : digitRunLen (dsL ++ ':' :: ' ' :: restL) = dsL.length :=
    digitRunLen_of_digits _ _ hds
      (fun c hc => by injection hc with h; rw [← h]; decide)
  have hdrop : (dsL ++ ':' :: ' ' :: restL).drop (digitRunLen (dsL ++ ':' :: ' ' :: restL))
      = ':' :: ' ' :: restL := by
    rw [hdl]
    exact List.drop_left _ _
  rw [if_pos ⟨by rw [hdl]; exact List.length_pos.mpr hdsne, by rw [hdrop]; rfl⟩]
  rw [hdl]

/-- Claim C4 (amended): when the message embeds a `:digits:` fragment,
`parseTemplateError` takes the line number from the first such
fragment, trims the text before it up to its first colon (and trims
surrounding white space), and returns the remainder after the fragment
as the description; when no fragment is present it returns line zero
and the full raw message. -/
theorem parseTemplateError_extracts_first_fragment :
    (∀ a b ds rest : String,
      ':' ∉ a.toList → ':' ∉ b.toList →
      (b.toList.head?.map Char.isDigit).getD true = false →
      ds.toList ≠ [] → (∀ c ∈ ds.toList, c.isDigit = true) →
      parseTemplateError (a ++ ":" ++ b ++ ":" ++ ds ++ ": " ++ rest)
        = some (⟨trimSpaceList b.toList⟩, decimalVal ds.toList, rest)) ∧
    (∀ msg : String, findNumColon msg.toList 0 = none →
      parseTemplateError msg = some ("", 0, msg)) := by
  constructor
  · intro a b ds rest ha hb hbd hdsne hds
    have hbne : b.toList ≠ [] := by
      intro h0
      rw [h0] at hbd
      simp at hbd
    have hbh : ∀ c, b.toList.head? = some c → c.isDigit = false := by
      intro c hc
      rw [hc] at hbd
      simpa using hbd
    have happ : ∀ x y : String, (x ++ y).toList = x.toList ++ y.toList :=
      fun x y => String.data_append x y
    have hmsg : (a ++ ":" ++ b ++ ":" ++ ds ++ ": " ++ rest).toList
        = a.toList ++ ':' :: (b.toList ++ ':' :: (ds.toList ++ ':' :: ' ' :: rest.toList)) := by
      rw [happ, happ, happ, happ, happ, happ]
      simp only [List.append_assoc]
      rfl
    have hfind := findNumColon_structured a.toList b.toList ds.toList rest.toList 0
      ha hb hbh hbne hds hdsne
    have hlen : 0 + a.toList.length + 1 + b.toList.length + ds.toList.length + 2 + 1
        ≤ (a.toList ++ ':' :: (b.toList ++ ':' :: (ds.toList ++ ':' :: ' ' :: rest.toList))).length := by
      simp only [List.length_append, List.length_cons]
      omega
    have hsplit1 : a.toList ++ ':' :: (b.toList ++ ':' :: (ds.toList ++ ':' :: ' ' :: rest.toList))
        = (a.toList ++ ':' :: b.toList) ++ (':' :: (ds.toList ++ ':' :: ' ' :: rest.toList)) := by
      simp [List.append_assoc]
    have htake : List.take (0 + a.toList.length + 1 + b.toList.length)
        (a.toList ++ ':' :: (b.toList ++ ':' :: (ds.toList ++ ':' :: ' ' :: rest.toList)))
        = a.toList ++ ':' :: b.toList := by
      rw [hsplit1]
      apply List.take_left'
      simp only [List.length_append, List.length_cons]
      omega
    have h_drop_name : List.drop (a.toList.length + 1) (a.toList ++ ':' :: b.toList)
        = b.toList := by
      have : a.toList ++ ':' :: b.toList = (a.toList ++ [':']) ++ b.toList := by
        simp [List.append_assoc]
      rw [this]
      apply List.drop_left'
      simp only [List.length_append, List.length_cons, List.length_nil]
    have hmatch : (match idxOfChar ':' (a.toList ++ ':' :: b.toList) with
        | some colon => List.drop (colon + 1) (a.toList ++ ':' :: b.toList)
        | none => a.toList ++ ':' :: b.toList) = b.toList := by
      rw [idxOfChar_append ':' a.toList b.toList ha]
      exact h_drop_name
    have hsplit2 : a.toList ++ ':' :: (b.toList ++ ':' :: (ds.toList ++ ':' :: ' ' :: rest.toList))
        = (a.toList ++ ':' :: b.toList ++ [':']) ++ (ds.toList ++ ':' :: ' ' :: rest.toList) := by
      simp [List.append_assoc]
    have hdropmid : List.drop (0 + a.toList.length + 1 + b.toList.length + 1)
        (a.toList ++ ':' :: (b.toList ++ ':' :: (ds.toList ++ ':' :: ' ' :: rest.toList)))
        = ds.toList ++ ':' :: ' ' :: rest.toList := by
      rw [hsplit2]
      apply List.drop_left'
      simp only [List.length_append, List.length_cons, List.length_nil]
      omega
    have harith2 : 0 + a.toList.length + 1 + b.toList.length + ds.toList.length + 2 - 1
        - (0 + a.toList.length + 1 + b.toList.length + 1) = ds.toList.length := by
      omega
    have h_digits : List.take (0 + a.toList.length + 1 + b.toList.length + ds.toList.length + 2 - 1
          - (0 + a.toList.length + 1 + b.toList.length + 1))
        (List.drop (0 + a.toList.length + 1 + b.toList.length + 1)
          (a.toList ++ ':' :: (b.toList ++ ':' :: (ds.toList ++ ':' :: ' ' :: rest.toList))))
        = ds.toList := by
      rw [hdropmid, harith2]
      exact List.take_left _ _
    have hsplit3 : a.toList ++ ':' :: (b.toList ++ ':' :: (ds.toList ++ ':' :: ' ' :: rest.toList))
        = (a.toList ++ ':' :: b.toList ++ ':' :: ds.toList ++ [':', ' ']) ++ rest.toList := by
      simp [List.append_assoc]
    have h_rest : List.drop (0 + a.toList.length + 1 + b.toList.length + ds.toList.length + 2 + 1)
        (a.toList ++ ':' :: (b.toList ++ ':' :: (ds.toList ++ ':' :: ' ' :: rest.toList)))
        = rest.toList := by
      rw [hsplit3]
      apply List.drop_left'
      simp only [List.length_append, List.length_cons, List.length_nil]
      omega
    simp only [parseTemplateError, hmsg, hfind]
    rw [if_pos hlen, htake, hmatch, h_digits, h_rest]
    rfl
  · intro msg h
    simp only [parseTemplateError, h]

/-- Witness for claim C4 (amended) at the source comment's own example
message and at a message with no fragment. -/
theorem parseTemplateError_extracts_first_fragment_witness :
    parseTemplateError "html/template:Application/Register.html:36: no such template" =
      some ("Application/Register.html", 36, "no such template") ∧
    parseTemplateError "no pattern here" = some ("", 0, "no pattern here") :=
  ⟨(parseTemplateError_extracts_first_fragment.1 "html/template" "Application/Register.html"
      "36" "no such template" (by decide) (by decide) (by decide) (by decide) (by decide)).trans
      (by decide),
   parseTemplateError_extracts_first_fragment.2 "no pattern here" (by decide)⟩

/-- Nil-ness of the merged set across one `AddTemplate` call: the set is
nil afterwards exactly when it was nil before and this call did not
compile a template successfully. -/
theorem addTemplate_templateSet_none_iff (fs : String → Option String) (merge : MergeFn)
    (s : EngineState) (info : TemplateInfo) :
    ((addTemplate fs merge s info).2.templateSet = none
      ↔ (s.templateSet = none ∧ addCompileSucceeded fs s info = false)) := by
  unfold addTemplate addCompileSucceeded
  by_cases h : (s.seen_paths.lookup info.Name).isSome = true
  · simp [h]
  · have h' : (s.seen_paths.lookup info.Name).isSome = false := Bool.eq_false_iff.mpr h
    cases hfs : fs info.Path with
    | none => simp [h', hfs]
    | some fileStr =>
      cases hh : s.handlers.lookup (pathExt info.Path) with
      | none => simp [h', hfs, hh]
      | some loader =>
        cases he : (loader info.Name fileStr s.delims).2 with
        | some e => simp [h', hfs, hh, he]
        | none =>
          cases hts : s.templateSet with
          | none =>
            cases ht : (loader info.Name fileStr s.delims).1 with
            | none => simp [h', hfs, hh, he, hts, ht]
            | some t => simp [h', hfs, hh, he, hts, ht, tmplToSet]
          | some ts =>
            cases ht : (loader info.Name fileStr s.delims).1 with
            | none => simp [h', hfs, hh, he, hts, ht]
            | some t =>
              cases hm : merge ts info.Name t with
              | error e => simp [h', hfs, hh, he, hts, ht, hm]
              | ok ts' => simp [h', hfs, hh, he, hts, ht, hm]

/-- The run invariant behind claim C9: along any operation sequence the
merged set is nil exactly when the success flag is down. -/
theorem runE_invariant (merge : MergeFn) :
    ∀ (ops : List EngineOp) (s : EngineState) (flag : Bool),
      (s.templateSet = none ↔ flag = false) →
      ((runE merge (s, flag) ops).1.templateSet = none
        ↔ (runE merge (s, flag) ops).2 = false) := by
  intro ops
  induction ops with
  | nil =>
    intro s flag h
    simpa [runE] using h
  | cons op rest ih =>
    intro s flag h
    cases op with
    | register ext l =>
      rw [runE]
      exact ih _ _ (by simpa [stepE] using h)
    | setDelims d =>
      rw [runE]
      exact ih _ _ (by simpa [stepE] using h)
    | clear =>
      rw [runE]
      exact ih _ _ (by simp [stepE])
    | add fs info =>
      rw [runE]
      apply ih
      rw [stepE, addTemplate_templateSet_none_iff, h]
      cases flag with
      | false => cases haddc : addCompileSucceeded fs s info with
        | false => simp [haddc]
        | true => simp [haddc]
      | true => simp

/-- Claim C9: the merged set starts nil, and at every point of any
operation sequence against the registry it is nil exactly when no
template has compiled successfully through its compiler since the last
`Clear`; moreover no operation other than `Clear` ever takes a non-nil
set back to nil. -/
theorem templateSet_nil_iff_no_success :
    engineStart.templateSet = none ∧
    (∀ (merge : MergeFn) (ops : List EngineOp),
      ((runE merge (engineStart, false) ops).1.templateSet = none
        ↔ (runE merge (engineStart, false) ops).2 = false)) ∧
    (∀ (merge : MergeFn) (s : EngineState) (op : EngineOp),
      op ≠ .clear → s.templateSet ≠ none → (stepE merge s op).templateSet ≠ none) := by
  refine ⟨rfl, ?_, ?_⟩
  · intro merge ops
    exact runE_invariant merge ops engineStart false (by simp [engineStart])
  · intro merge s op hop hs
    cases op with
    | register ext l => simpa [stepE] using hs
    | setDelims d => simpa [stepE] using hs
    | clear => exact absurd rfl hop
    | add fs info =>
      intro hnone
      rw [stepE, addTemplate_templateSet_none_iff] at hnone
      exact hs hnone.1

/-- Witness for claim C9 at a concrete input: registering the default
handler and compiling one readable template flips both sides of the
invariant, and a non-clear operation on a non-nil set keeps it
non-nil. -/
theorem templateSet_nil_iff_no_success_witness :
    (((runE c2merge (engineStart, false)
        [.register "" c2loader, .add c2fs ⟨"good", "/views/good"⟩]).1.templateSet = none)
      ↔ ((runE c2merge (engineStart, false)
        [.register "" c2loader, .add c2fs ⟨"good", "/views/good"⟩]).2 = false)) ∧
    (stepE c2merge
        { engineStart with templateSet := some [("good", ⟨"good", "GOOD"⟩)] }
        (.setDelims ["<%", "%>"])).templateSet ≠ none :=
  ⟨templateSet_nil_iff_no_success.2.1 c2merge
      [.register "" c2loader, .add c2fs ⟨"good", "/views/good"⟩],
   templateSet_nil_iff_no_success.2.2 c2merge
      { engineStart with templateSet := some [("good", ⟨"good", "GOOD"⟩)] }
      (.setDelims ["<%", "%>"]) (fun h => EngineOp.noConfusion h)
      (fun h => Option.noConfusion h)⟩
